import Mathlib

/-!
Shallow embedding of the notification gateway in `src/app.py` (a Flask HTTP
service forwarding push notifications).  Request bodies are modelled with
`Option String` fields: `none` stands for an absent JSON key, `some ""` for a
present but empty value, mirroring Python's `data.get(k)` plus truthiness
checks.  The Firestore collection `usuarios_registrados` is modelled as a
`List UserRecord`; the push-delivery backend (`messaging.send`,
`messaging.send_multicast`) is a function parameter, and each handler records
the outbound delivery calls and the Directory operations it performs, so that
side-effect claims can be stated.
-/

namespace NotifGateway

/-- Python truthiness of an optional string (`not x` in the source is the
negation of this): `None` and `""` are falsy, every other string is truthy. -/
def truthy : Option String → Bool
  | none => false
  | some s => s != ""

/-- A document of the `usuarios_registrados` collection. -/
structure UserRecord where
  id : String
  email : Option String
  fcmToken : Option String
  deriving DecidableEq, Repr

/-- An operation performed against the User Directory (Firestore). -/
inductive DirOp where
  /-- `db.collection('usuarios_registrados').document(id).get()` -/
  | lookup (id : String)
  /-- `users_ref.where('fcmToken', '!=', None).stream()` -/
  | scanWithTokenFilter
  /-- `users_ref.stream()` -/
  | scan
  deriving DecidableEq, Repr

/-- Lookup in a Python dict modelled as an association list (first match). -/
def dictGet (m : List (String × String)) (k : String) : Option String :=
  (m.find? (fun p => p.1 == k)).map (fun p => p.2)

/-- Python `{**m, k: v}`: if `k` is already a key of `m` its value is
replaced in place, otherwise `(k, v)` is appended at the end. -/
def pyDictSet (m : List (String × String)) (k v : String) :
    List (String × String) :=
  if m.any (fun p => p.1 == k) then
    m.map (fun p => if p.1 == k then (k, v) else p)
  else
    m ++ [(k, v)]

/-- Body of a POST to `/api/notifications/send-to-user`. -/
structure SendToUserRequest where
  userId : Option String
  title : Option String
  body : Option String
  /-- `data.get('data', {})` -/
  data : List (String × String)
  channelId : Option String
  deriving DecidableEq, Repr

/-- The single-target `messaging.Message` built by `send_to_user`
(the fixed android/apns priority, sound and badge hints are constants in the
source and are not modelled field by field). -/
structure Message where
  title : String
  body : String
  data : List (String × String)
  token : String
  androidChannelId : String
  deriving DecidableEq, Repr

/-- Outcome of `send_to_user`, one constructor per `return` site. -/
inductive SendToUserResult where
  | validationError (required : List String)
  | notFound (userId : String)
  | missingToken (userId : String)
  | success (messageId : String) (userId : String) (email : Option String)
  deriving DecidableEq, Repr

/-- HTTP status code attached to each `send_to_user` outcome. -/
def SendToUserResult.status : SendToUserResult → Nat
  | .validationError _ => 400
  | .notFound _ => 404
  | .missingToken _ => 400
  | .success _ _ _ => 200

/-- Observable outcome of one `send_to_user` request: the HTTP result, the
outbound push-delivery calls made, and the Directory operations performed. -/
structure SendToUserOut where
  result : SendToUserResult
  pushCalls : List Message
  dirOps : List DirOp
  deriving DecidableEq, Repr

/-- `db.collection('usuarios_registrados').document(user_id).get()`. -/
def findUser (dir : List UserRecord) (user_id : String) : Option UserRecord :=
  dir.find? (fun r => r.id == user_id)

/-- The `messaging.Message` constructed at lines 98–114 of the source:
`data={**notification_data, 'channelId': channel_id}` with
`channel_id = data.get('channelId', 'general_channel')`. -/
def buildUserMessage (req : SendToUserRequest) (fcm_token : String) : Message :=
  { title := req.title.getD ""
    body := req.body.getD ""
    data := pyDictSet req.data "channelId" (req.channelId.getD "general_channel")
    token := fcm_token
    androidChannelId := req.channelId.getD "general_channel" }

/-- Handler of `POST /api/notifications/send-to-user` (source lines 64–129). -/
def send_to_user (backend : Message → String) (dir : List UserRecord)
    (req : SendToUserRequest) : SendToUserOut :=
  if truthy req.userId = false ∨ truthy req.title = false ∨
      truthy req.body = false then
    { result := .validationError ["userId", "title", "body"]
      pushCalls := [], dirOps := [] }
  else
    match findUser dir (req.userId.getD "") with
    | none =>
        { result := .notFound (req.userId.getD "")
          pushCalls := [], dirOps := [.lookup (req.userId.getD "")] }
    | some user_data =>
        if truthy user_data.fcmToken = false then
          { result := .missingToken (req.userId.getD "")
            pushCalls := [], dirOps := [.lookup (req.userId.getD "")] }
        else
          { result := .success
              (backend (buildUserMessage req (user_data.fcmToken.getD "")))
              (req.userId.getD "") user_data.email
            pushCalls := [buildUserMessage req (user_data.fcmToken.getD "")]
            dirOps := [.lookup (req.userId.getD "")] }

/-- Body of a POST to `/api/notifications/send-to-all`. -/
structure SendToAllRequest where
  title : Option String
  body : Option String
  data : List (String × String)
  deriving DecidableEq, Repr

/-- Per-call result of `messaging.send_multicast`. -/
structure MulticastResponse where
  success_count : Nat
  failure_count : Nat
  deriving DecidableEq, Repr

/-- Outcome of `send_to_all`, one constructor per `return` site. -/
inductive SendToAllResult where
  | validationError (required : List String)
  | noRecipients
  | success (totalUsers successCount failureCount : Nat)
  deriving DecidableEq, Repr

/-- HTTP status code attached to each `send_to_all` outcome. -/
def SendToAllResult.status : SendToAllResult → Nat
  | .validationError _ => 400
  | .noRecipients => 400
  | .success _ _ _ => 200

/-- Observable outcome of one `send_to_all` request. -/
structure SendToAllOut where
  result : SendToAllResult
  multicastCalls : List (List String)
  dirOps : List DirOp
  deriving DecidableEq, Repr

/-- The token sequence collected at lines 150–158 of the source: the Firestore
query keeps documents whose `fcmToken` field is present and non-null, and the
loop keeps only truthy (non-empty) tokens, in enumeration order. -/
def eligibleTokens (dir : List UserRecord) : List String :=
  (dir.filter (fun r => r.fcmToken.isSome)).filterMap
    (fun r => match r.fcmToken with
      | some t => if t == "" then none else some t
      | none => none)

/-- `tokens[i:i + batch_size]` for `i in range(0, len(tokens), batch_size)`:
the consecutive slices of length `n` (the last one possibly shorter). -/
def chunks {α : Type} (n : Nat) (l : List α) : List (List α) :=
  if _h : l.length = 0 ∨ n = 0 then []
  else l.take n :: chunks n (l.drop n)
termination_by l.length
decreasing_by
  push_neg at _h
  rw [List.length_drop]
  exact Nat.sub_lt (Nat.pos_of_ne_zero _h.1) (Nat.pos_of_ne_zero _h.2)

/-- The accumulation loop at lines 167–181:
`total_success += response.success_count; total_failure += response.failure_count`
over the batches, starting from `(0, 0)`. -/
def sendTotals (backend : List String → MulticastResponse)
    (batches : List (List String)) : Nat × Nat :=
  batches.foldl
    (fun acc b => (acc.1 + (backend b).success_count,
                   acc.2 + (backend b).failure_count))
    (0, 0)

/-- Handler of `POST /api/notifications/send-to-all` (source lines 132–195).
`batch_size` is the literal `500` of line 166. -/
def send_to_all (backend : List String → MulticastResponse)
    (dir : List UserRecord) (req : SendToAllRequest) : SendToAllOut :=
  if truthy req.title = false ∨ truthy req.body = false then
    { result := .validationError ["title", "body"]
      multicastCalls := [], dirOps := [] }
  else if eligibleTokens dir = [] then
    { result := .noRecipients
      multicastCalls := [], dirOps := [.scanWithTokenFilter] }
  else
    { result := .success (eligibleTokens dir).length
        (sendTotals backend (chunks 500 (eligibleTokens dir))).1
        (sendTotals backend (chunks 500 (eligibleTokens dir))).2
      multicastCalls := chunks 500 (eligibleTokens dir)
      dirOps := [.scanWithTokenFilter] }

/-- Body of a POST to `/api/notifications/send-to-topic`. -/
structure SendToTopicRequest where
  topic : Option String
  title : Option String
  body : Option String
  data : List (String × String)
  deriving DecidableEq, Repr

/-- The topic-addressed `messaging.Message` built by `send_to_topic`. -/
structure TopicMessage where
  title : String
  body : String
  data : List (String × String)
  topic : String
  androidChannelId : String
  deriving DecidableEq, Repr

/-- Outcome of `send_to_topic`. -/
inductive SendToTopicResult where
  | validationError (required : List String)
  | success (messageId : String) (topic : String)
  deriving DecidableEq, Repr

/-- HTTP status code attached to each `send_to_topic` outcome. -/
def SendToTopicResult.status : SendToTopicResult → Nat
  | .validationError _ => 400
  | .success _ _ => 200

/-- Observable outcome of one `send_to_topic` request. -/
structure SendToTopicOut where
  result : SendToTopicResult
  pushCalls : List TopicMessage
  dirOps : List DirOp
  deriving DecidableEq, Repr

/-- Handler of `POST /api/notifications/send-to-topic` (source lines 198–237).
It takes the Directory as an argument like the other handlers, but its body
never touches it. -/
def send_to_topic (backend : TopicMessage → String) (dir : List UserRecord)
    (req : SendToTopicRequest) : SendToTopicOut :=
  if truthy req.topic = false ∨ truthy req.title = false ∨
      truthy req.body = false then
    { result := .validationError ["topic", "title", "body"]
      pushCalls := [], dirOps := [] }
  else
    { result := .success
        (backend { title := req.title.getD ""
                   body := req.body.getD ""
                   data := req.data
                   topic := req.topic.getD ""
                   androidChannelId := "general_channel" })
        (req.topic.getD "")
      pushCalls := [{ title := req.title.getD ""
                      body := req.body.getD ""
                      data := req.data
                      topic := req.topic.getD ""
                      androidChannelId := "general_channel" }]
      dirOps := [] }

/-- One entry of the `users` array returned by `GET /api/notifications/users`. -/
structure UserProjection where
  id : String
  email : Option String
  hasToken : Bool
  deriving DecidableEq, Repr

/-- The projection of lines 249–253:
`{'id': user.id, 'email': user_data.get('email'), 'hasToken': bool(user_data.get('fcmToken'))}`. -/
def userProjection (user_data : UserRecord) : UserProjection :=
  { id := user_data.id
    email := user_data.email
    hasToken := truthy user_data.fcmToken }

/-- Body of a successful `GET /api/notifications/users` response. -/
structure GetUsersResult where
  success : Bool
  total : Nat
  withTokens : Nat
  users : List UserProjection
  deriving DecidableEq, Repr

/-- Observable outcome of one `GET /api/notifications/users` request. -/
structure GetUsersOut where
  result : GetUsersResult
  dirOps : List DirOp
  deriving DecidableEq, Repr

/-- Handler of `GET /api/notifications/users` (source lines 240–265);
`with_tokens = sum(1 for u in users_list if u['hasToken'])`. -/
def get_users (dir : List UserRecord) : GetUsersOut :=
  { result :=
      { success := true
        total := (dir.map userProjection).length
        withTokens := (dir.map userProjection).countP (fun u => u.hasToken)
        users := dir.map userProjection }
    dirOps := [.scan] }

/-- Modelled from the spec (section 8, "response is HTTP 400 listing exactly
the missing required fields"): the sublist of `["userId", "title", "body"]`
that is actually missing or empty in the request.  This is the spec-side
rendering used to compare the claim against the source's fixed `required`
list; it is not part of the source. -/
def specMissingUserFields (req : SendToUserRequest) : List String :=
  (if truthy req.userId then [] else ["userId"]) ++
  (if truthy req.title then [] else ["title"]) ++
  (if truthy req.body then [] else ["body"])

/-- A concrete single-send backend used by witnesses. -/
def pushBackend1 : Message → String := fun _ => "msg-001"

/-- A concrete multicast backend for witnesses: every token succeeds. -/
def mcBackendAllOk : List String → MulticastResponse :=
  fun b => { success_count := b.length, failure_count := 0 }

/-- A concrete multicast backend for witnesses: every token fails. -/
def mcBackendAllFail : List String → MulticastResponse :=
  fun b => { success_count := 0, failure_count := b.length }

/-- A concrete Directory used by witnesses: two truthy tokens, one absent
token, one empty-string token. -/
def dir0 : List UserRecord :=
  [{ id := "u1", email := some "u1@example.com", fcmToken := some "t1" },
   { id := "u2", email := none, fcmToken := some "t2" },
   { id := "u3", email := some "u3@example.com", fcmToken := none },
   { id := "u4", email := none, fcmToken := some "" }]

/-- A concrete Directory with no eligible token. -/
def dirNoTokens : List UserRecord :=
  [{ id := "u1", email := some "u1@example.com", fcmToken := none },
   { id := "u2", email := none, fcmToken := some "" }]

/-- A concrete valid broadcast request. -/
def reqAll0 : SendToAllRequest :=
  { title := some "T", body := some "B", data := [] }

/-- A concrete valid single-user request targeting `u1`, with a caller `data`
map that already contains a `channelId` entry. -/
def reqUser0 : SendToUserRequest :=
  { userId := some "u1", title := some "T", body := some "B"
    data := [("k", "v"), ("channelId", "old")], channelId := some "chat" }

/-- A concrete request with `userId` absent but `title`/`body` present. -/
def reqUserMissingId : SendToUserRequest :=
  { userId := none, title := some "T", body := some "B"
    data := [], channelId := none }

/-- A concrete request naming a user absent from `dir0`. -/
def reqUserUnknown : SendToUserRequest :=
  { userId := some "zz", title := some "T", body := some "B"
    data := [], channelId := none }

/-- A concrete request naming `u3`, who has no token in `dir0`. -/
def reqUserNoToken : SendToUserRequest :=
  { userId := some "u3", title := some "T", body := some "B"
    data := [], channelId := none }

/-- A concrete valid topic request. -/
def reqTopic0 : SendToTopicRequest :=
  { topic := some "news", title := some "T", body := some "B", data := [] }

/-- A concrete topic backend used by witnesses. -/
def topicBackend1 : TopicMessage → String := fun _ => "msg-002"

/-! ## Helper lemmas about the batching loop and the dict merge -/

theorem chunks_nil {α : Type} (n : Nat) : chunks n ([] : List α) = [] := by
  rw [chunks]
  simp

theorem chunks_flatten {α : Type} (n : Nat) (hn : n ≠ 0) (l : List α) :
    (chunks n l).flatten = l := by
  rw [chunks]
  split
  next h =>
    rcases h with h | h
    · simp [List.length_eq_zero.mp h]
    · exact absurd h hn
  next h =>
    push_neg at h
    rw [List.flatten_cons, chunks_flatten n hn (l.drop n), List.take_append_drop]
termination_by l.length
decreasing_by
  rw [List.length_drop]
  omega

theorem chunks_length_eq {α : Type} (n : Nat) (hn : n ≠ 0) (l : List α)
    (hl : l ≠ []) : (chunks n l).length = (l.length - 1) / n + 1 := by
  rw [chunks]
  split
  next h =>
    rcases h with h | h
    · exact absurd (List.length_eq_zero.mp h) hl
    · exact absurd h hn
  next h =>
    push_neg at h
    by_cases hd : l.length ≤ n
    · rw [List.drop_eq_nil_iff.mpr hd, chunks_nil]
      have h0 : (l.length - 1) / n = 0 := Nat.div_eq_of_lt (by omega)
      simp [h0]
    · push_neg at hd
      have hdrop : l.drop n ≠ [] := by
        intro hc
        exact absurd (List.drop_eq_nil_iff.mp hc) (by omega)
      rw [List.length_cons, chunks_length_eq n hn (l.drop n) hdrop,
        List.length_drop]
      have h1 : (l.length - 1) / n = (l.length - 1 - n) / n + 1 :=
        Nat.div_eq_sub_div (Nat.pos_of_ne_zero hn) (by omega)
      have h2 : l.length - n - 1 = l.length - 1 - n := by omega
      rw [h2, h1]
termination_by l.length
decreasing_by
  rw [List.length_drop]
  omega

theorem chunks_length {α : Type} (n : Nat) (hn : n ≠ 0) (l : List α)
    (hl : l ≠ []) : (chunks n l).length = (l.length + n - 1) / n := by
  rw [chunks_length_eq n hn l hl]
  have hpos : 0 < l.length := List.length_pos.mpr hl
  have h1 : l.length + n - 1 = (l.length - 1) + n := by omega
  rw [h1, Nat.add_div_right _ (Nat.pos_of_ne_zero hn)]

theorem mem_chunks {α : Type} (n : Nat) (l b : List α) (hb : b ∈ chunks n l) :
    b.length ≤ n ∧ b ≠ [] := by
  rw [chunks] at hb
  split at hb
  · simp at hb
  next h =>
    push_neg at h
    rcases List.mem_cons.mp hb with rfl | hb'
    · refine ⟨List.length_take_le n l, ?_⟩
      intro hc
      rcases List.take_eq_nil_iff.mp hc with h0 | h0
      · exact h.2 h0
      · exact h.1 (by simp [h0])
    · exact mem_chunks n (l.drop n) b hb'
termination_by l.length
decreasing_by
  rw [List.length_drop]
  omega

theorem foldl_totals {β : Type} (f g : β → Nat) (l : List β) (a c : Nat) :
    l.foldl (fun acc b => (acc.1 + f b, acc.2 + g b)) (a, c)
      = (a + (l.map f).sum, c + (l.map g).sum) := by
  induction l generalizing a c with
  | nil => simp
  | cons x xs ih => simp [ih, Nat.add_assoc]

theorem sendTotals_eq (backend : List String → MulticastResponse)
    (batches : List (List String)) :
    sendTotals backend batches
      = ((batches.map (fun b => (backend b).success_count)).sum,
         (batches.map (fun b => (backend b).failure_count)).sum) := by
  have h := foldl_totals (fun b => (backend b).success_count)
    (fun b => (backend b).failure_count) batches 0 0
  simpa [sendTotals] using h

theorem find_map_set (m : List (String × String)) (k v : String)
    (h : m.any (fun p => p.1 == k) = true) :
    (m.map (fun p => if p.1 == k then (k, v) else p)).find?
      (fun p => p.1 == k) = some (k, v) := by
  induction m with
  | nil => simp at h
  | cons p m ih =>
    by_cases hp : (p.1 == k) = true
    · rw [List.map_cons, if_pos hp]
      exact List.find?_cons_of_pos _ (beq_self_eq_true k)
    · have h' : m.any (fun q => q.1 == k) = true := by
        rw [List.any_cons, Bool.eq_false_iff.mpr hp, Bool.false_or] at h
        exact h
      rw [List.map_cons, if_neg hp]
      exact (@List.find?_cons_of_neg _ (fun q => q.1 == k) p
        (m.map (fun q => if q.1 == k then (k, v) else q)) hp).trans (ih h')

theorem find_map_set_other (m : List (String × String)) (k v k' : String)
    (hkk : (k == k') = false) :
    (m.map (fun p => if p.1 == k then (k, v) else p)).find?
      (fun p => p.1 == k') = m.find? (fun p => p.1 == k') := by
  induction m with
  | nil => rfl
  | cons p m ih =>
    by_cases hp : (p.1 == k) = true
    · have hp1 : p.1 = k := beq_iff_eq.mp hp
      have hp' : ¬((p.1 == k') = true) := by
        rw [hp1, hkk]
        exact Bool.false_ne_true
      have hk' : ¬(((k, v).1 == k') = true) := by
        rw [show ((k, v).1 == k') = (k == k') from rfl, hkk]
        exact Bool.false_ne_true
      rw [List.map_cons, if_pos hp]
      exact (@List.find?_cons_of_neg _ (fun q => q.1 == k') (k, v)
          (m.map (fun q => if q.1 == k then (k, v) else q)) hk').trans
        (ih.trans (@List.find?_cons_of_neg _ (fun q => q.1 == k') p m hp').symm)
    · by_cases hq : (p.1 == k') = true
      · rw [List.map_cons, if_neg hp]
        exact (@List.find?_cons_of_pos _ (fun q => q.1 == k') p
            (m.map (fun q => if q.1 == k then (k, v) else q)) hq).trans
          (@List.find?_cons_of_pos _ (fun q => q.1 == k') p m hq).symm
      · rw [List.map_cons, if_neg hp]
        exact (@List.find?_cons_of_neg _ (fun q => q.1 == k') p
            (m.map (fun q => if q.1 == k then (k, v) else q)) hq).trans
          (ih.trans (@List.find?_cons_of_neg _ (fun q => q.1 == k') p m hq).symm)

theorem dictGet_pyDictSet_self (m : List (String × String)) (k v : String) :
    dictGet (pyDictSet m k v) k = some v := by
  unfold dictGet pyDictSet
  by_cases h : m.any (fun p => p.1 == k) = true
  · rw [if_pos h, find_map_set m k v h]
    rfl
  · rw [if_neg h, List.find?_append]
    have h1 : m.find? (fun p => p.1 == k) = none := by
      rw [List.find?_eq_none]
      intro x hx hc
      exact h (List.any_eq_true.mpr ⟨x, hx, hc⟩)
    rw [h1]
    simp [List.find?]

theorem dictGet_pyDictSet_other (m : List (String × String)) (k v k' : String)
    (hne : k' ≠ k) :
    dictGet (pyDictSet m k v) k' = dictGet m k' := by
  unfold dictGet pyDictSet
  have hkk : (k == k') = false := beq_eq_false_iff_ne.mpr (Ne.symm hne)
  by_cases h : m.any (fun p => p.1 == k) = true
  · rw [if_pos h, find_map_set_other m k v k' hkk]
  · rw [if_neg h, List.find?_append]
    simp [List.find?, hkk]

theorem send_to_user_found (backend : Message → String)
    (dir : List UserRecord) (req : SendToUserRequest) (r : UserRecord)
    (hcond : ¬(truthy req.userId = false ∨ truthy req.title = false ∨
      truthy req.body = false))
    (hr : findUser dir (req.userId.getD "") = some r) :
    send_to_user backend dir req =
      if truthy r.fcmToken = false then
        { result := .missingToken (req.userId.getD "")
          pushCalls := [], dirOps := [.lookup (req.userId.getD "")] }
      else
        { result := .success
            (backend (buildUserMessage req (r.fcmToken.getD "")))
            (req.userId.getD "") r.email
          pushCalls := [buildUserMessage req (r.fcmToken.getD "")]
          dirOps := [.lookup (req.userId.getD "")] } := by
  rw [send_to_user, if_neg hcond, hr]

/-! ## Claim theorems -/

/-- C3: in every `ListUsers` response, `withTokens` counts exactly the
returned entries whose `hasToken` is `true`; the returned entries are the
per-record projections of the Directory, and a projection's `hasToken` is
`true` iff the record's `fcmToken` is a present, non-empty string. -/
theorem C3_with_tokens_count (dir : List UserRecord) :
    (get_users dir).result.withTokens
      = ((get_users dir).result.users.filter (fun u => u.hasToken)).length ∧
    (get_users dir).result.users = dir.map userProjection ∧
    ∀ r : UserRecord, (userProjection r).hasToken = true
        ↔ ∃ s, r.fcmToken = some s ∧ s ≠ "" := by
  refine ⟨List.countP_eq_length_filter _ _, rfl, ?_⟩
  intro r
  cases hr : r.fcmToken with
  | none => simp [userProjection, truthy, hr]
  | some s => simp [userProjection, truthy, hr]

/-- C4: a valid broadcast request over a Directory with no eligible token
returns the `noRecipients` outcome with HTTP status 400 and performs no
multicast delivery call. -/
theorem C4_no_recipients (backend : List String → MulticastResponse)
    (dir : List UserRecord) (req : SendToAllRequest)
    (ht : truthy req.title = true) (hb : truthy req.body = true)
    (hE : eligibleTokens dir = []) :
    send_to_all backend dir req =
      { result := .noRecipients, multicastCalls := []
        dirOps := [.scanWithTokenFilter] } ∧
    (send_to_all backend dir req).result.status = 400 ∧
    (send_to_all backend dir req).multicastCalls = [] := by
  rw [send_to_all, if_neg (by simp [ht, hb]), if_pos hE]
  exact ⟨rfl, rfl, rfl⟩

/-- C4 witness: the broadcast `reqAll0` against `dirNoTokens` (one record
with no token field, one with an empty-string token) is rejected with
`noRecipients`, status 400, and zero multicast calls. -/
theorem C4_no_recipients_witness :
    truthy reqAll0.title = true ∧ truthy reqAll0.body = true ∧
    eligibleTokens dirNoTokens = [] ∧
    (send_to_all mcBackendAllOk dirNoTokens reqAll0 =
      { result := .noRecipients, multicastCalls := []
        dirOps := [.scanWithTokenFilter] } ∧
    (send_to_all mcBackendAllOk dirNoTokens reqAll0).result.status = 400 ∧
    (send_to_all mcBackendAllOk dirNoTokens reqAll0).multicastCalls = []) :=
  ⟨by decide, by decide, by decide,
   C4_no_recipients mcBackendAllOk dirNoTokens reqAll0
     (by decide) (by decide) (by decide)⟩

/-- C7: the `send-to-topic` handler performs no Directory operation, and its
entire observable outcome is independent of the Directory's contents. -/
theorem C7_topic_no_directory (backend : TopicMessage → String)
    (dir dir' : List UserRecord) (req : SendToTopicRequest) :
    (send_to_topic backend dir req).dirOps = [] ∧
    send_to_topic backend dir req = send_to_topic backend dir' req := by
  constructor
  · rw [send_to_topic]
    split <;> rfl
  · rfl

/-- C9: two `ListUsers` evaluations against the same unchanged Directory
contents produce identical projections: same `total`, same `withTokens`,
same `users` list, and in fact identical outcomes. -/
theorem C9_list_users_idempotent (dir : List UserRecord)
    (r1 r2 : GetUsersOut) (h1 : r1 = get_users dir) (h2 : r2 = get_users dir) :
    r1.result.total = r2.result.total ∧
    r1.result.withTokens = r2.result.withTokens ∧
    r1.result.users = r2.result.users ∧ r1 = r2 := by
  subst h1
  subst h2
  exact ⟨rfl, rfl, rfl, rfl⟩

/-- C1: a valid broadcast over `N > 0` eligible tokens performs exactly
`⌈N/500⌉` multicast calls (stated as `(N + 500 - 1) / 500` over `Nat`), each
over a consecutive, in-order group of at most 500 tokens (the concatenation
of the calls is exactly the eligible-token sequence), and responds with
`totalUsers = N`, `successCount` the sum of the per-call success counts and
`failureCount` the sum of the per-call failure counts. -/
theorem C1_send_to_all_batching (backend : List String → MulticastResponse)
    (dir : List UserRecord) (req : SendToAllRequest) (o : SendToAllOut)
    (ho : o = send_to_all backend dir req)
    (ht : truthy req.title = true) (hb : truthy req.body = true)
    (hN : eligibleTokens dir ≠ []) :
    o.multicastCalls.length = ((eligibleTokens dir).length + 500 - 1) / 500 ∧
    o.multicastCalls.flatten = eligibleTokens dir ∧
    (∀ b ∈ o.multicastCalls, b.length ≤ 500 ∧ b ≠ []) ∧
    o.result = SendToAllResult.success (eligibleTokens dir).length
      ((o.multicastCalls.map (fun b => (backend b).success_count)).sum)
      ((o.multicastCalls.map (fun b => (backend b).failure_count)).sum) := by
  subst ho
  rw [send_to_all, if_neg (by simp [ht, hb]), if_neg hN]
  refine ⟨chunks_length 500 (by omega) _ hN, chunks_flatten 500 (by omega) _,
    fun b hb' => mem_chunks 500 _ b hb', ?_⟩
  show SendToAllResult.success _ (sendTotals backend _).1 (sendTotals backend _).2 = _
  rw [sendTotals_eq]

/-- C1 witness: broadcasting `reqAll0` over `dir0` (two eligible tokens)
makes `⌈2/500⌉ = 1` multicast call whose concatenation is the token sequence,
and reports `totalUsers = 2` with the per-call sums. -/
theorem C1_send_to_all_batching_witness :
    truthy reqAll0.title = true ∧ truthy reqAll0.body = true ∧
    eligibleTokens dir0 ≠ [] ∧
    ((send_to_all mcBackendAllOk dir0 reqAll0).multicastCalls.length
        = ((eligibleTokens dir0).length + 500 - 1) / 500 ∧
      (send_to_all mcBackendAllOk dir0 reqAll0).multicastCalls.flatten
        = eligibleTokens dir0 ∧
      (∀ b ∈ (send_to_all mcBackendAllOk dir0 reqAll0).multicastCalls,
        b.length ≤ 500 ∧ b ≠ []) ∧
      (send_to_all mcBackendAllOk dir0 reqAll0).result
        = SendToAllResult.success (eligibleTokens dir0).length
          (((send_to_all mcBackendAllOk dir0 reqAll0).multicastCalls.map
            (fun b => (mcBackendAllOk b).success_count)).sum)
          (((send_to_all mcBackendAllOk dir0 reqAll0).multicastCalls.map
            (fun b => (mcBackendAllOk b).failure_count)).sum)) :=
  ⟨by decide, by decide, by decide,
   C1_send_to_all_batching mcBackendAllOk dir0 reqAll0 _ rfl
     (by decide) (by decide) (by decide)⟩

/-- C8: for any multicast backend that returns without raising (modelled by
the backend being a total function), a valid broadcast over a non-empty
eligible-token sequence is an HTTP-level success (status 200 with a
`success` outcome), whatever the per-token success/failure counts are. -/
theorem C8_partial_failure_is_http_success
    (backend : List String → MulticastResponse) (dir : List UserRecord)
    (req : SendToAllRequest)
    (ht : truthy req.title = true) (hb : truthy req.body = true)
    (hN : eligibleTokens dir ≠ []) :
    (send_to_all backend dir req).result.status = 200 ∧
    ∃ s f, (send_to_all backend dir req).result
        = SendToAllResult.success (eligibleTokens dir).length s f := by
  rw [send_to_all, if_neg (by simp [ht, hb]), if_neg hN]
  exact ⟨rfl, _, _, rfl⟩

/-- C8 witness: with the backend that fails every single delivery, the
broadcast `reqAll0` over `dir0` still returns HTTP 200 with a `success`
outcome. -/
theorem C8_partial_failure_is_http_success_witness :
    truthy reqAll0.title = true ∧ truthy reqAll0.body = true ∧
    eligibleTokens dir0 ≠ [] ∧
    ((send_to_all mcBackendAllFail dir0 reqAll0).result.status = 200 ∧
      ∃ s f, (send_to_all mcBackendAllFail dir0 reqAll0).result
          = SendToAllResult.success (eligibleTokens dir0).length s f) :=
  ⟨by decide, by decide, by decide,
   C8_partial_failure_is_http_success mcBackendAllFail dir0 reqAll0
     (by decide) (by decide) (by decide)⟩

/-- C2 counterexample: on a request whose only missing field is `userId`
(title and body present and non-empty), the handler's 400 body lists all
three required fields, not exactly the missing ones: the spec-side list of
missing fields is `["userId"]`, which differs from the returned list. -/
theorem C2_counterexample_full_list_returned :
    (send_to_user pushBackend1 dir0 reqUserMissingId).result
        = SendToUserResult.validationError ["userId", "title", "body"] ∧
    specMissingUserFields reqUserMissingId = ["userId"] ∧
    (["userId", "title", "body"] : List String) ≠ ["userId"] := by
  refine ⟨by decide, by decide, by decide⟩

/-- C2 amended: for every `send-to-user` request in which any of `userId`,
`title`, `body` is absent or empty, the response is HTTP 400 and its body
lists the fixed full set of required fields `["userId", "title", "body"]`
(regardless of which of them are missing), and no push-delivery call is
made. -/
theorem C2_validation_lists_all_required (backend : Message → String)
    (dir : List UserRecord) (req : SendToUserRequest)
    (h : truthy req.userId = false ∨ truthy req.title = false ∨
      truthy req.body = false) :
    (send_to_user backend dir req).result
        = SendToUserResult.validationError ["userId", "title", "body"] ∧
    (send_to_user backend dir req).result.status = 400 ∧
    (send_to_user backend dir req).pushCalls = [] := by
  rw [send_to_user, if_pos h]
  exact ⟨rfl, rfl, rfl⟩

/-- C2 witness: the request missing only `userId` gets the 400
`validationError` outcome listing all three required fields. -/
theorem C2_validation_lists_all_required_witness :
    (truthy reqUserMissingId.userId = false ∨
      truthy reqUserMissingId.title = false ∨
      truthy reqUserMissingId.body = false) ∧
    ((send_to_user pushBackend1 dir0 reqUserMissingId).result
        = SendToUserResult.validationError ["userId", "title", "body"] ∧
      (send_to_user pushBackend1 dir0 reqUserMissingId).result.status = 400 ∧
      (send_to_user pushBackend1 dir0 reqUserMissingId).pushCalls = []) :=
  ⟨Or.inl (by decide),
   C2_validation_lists_all_required pushBackend1 dir0 reqUserMissingId
     (Or.inl (by decide))⟩

/-- C5: on a request with non-empty `userId`, `title`, `body`: if the
Directory holds no record with that id the outcome is `notFound` with HTTP
404; if the record exists but its `fcmToken` is absent or empty the outcome
is `missingToken` with HTTP 400; in both cases no push-delivery call is
made (only the one Directory lookup happens). -/
theorem C5_lookup_failures (backend : Message → String)
    (dir : List UserRecord) (req : SendToUserRequest)
    (hu : truthy req.userId = true) (ht : truthy req.title = true)
    (hb : truthy req.body = true) :
    (findUser dir (req.userId.getD "") = none →
      send_to_user backend dir req =
        { result := .notFound (req.userId.getD "")
          pushCalls := [], dirOps := [.lookup (req.userId.getD "")] } ∧
      (SendToUserResult.notFound (req.userId.getD "")).status = 404) ∧
    (∀ r, findUser dir (req.userId.getD "") = some r →
      truthy r.fcmToken = false →
      send_to_user backend dir req =
        { result := .missingToken (req.userId.getD "")
          pushCalls := [], dirOps := [.lookup (req.userId.getD "")] } ∧
      (SendToUserResult.missingToken (req.userId.getD "")).status = 400) := by
  have hcond : ¬(truthy req.userId = false ∨ truthy req.title = false ∨
      truthy req.body = false) := by simp [hu, ht, hb]
  constructor
  · intro hn
    rw [send_to_user, if_neg hcond, hn]
    exact ⟨rfl, rfl⟩
  · intro r hr htok
    rw [send_to_user_found backend dir req r hcond hr, if_pos htok]
    exact ⟨rfl, rfl⟩

/-- C5 witness: against `dir0`, the unknown id `zz` yields `notFound` with
no push call, and `u3` (present, token absent) yields `missingToken` with
no push call. -/
theorem C5_lookup_failures_witness :
    (findUser dir0 "zz" = none ∧
      send_to_user pushBackend1 dir0 reqUserUnknown =
        { result := .notFound "zz"
          pushCalls := [], dirOps := [.lookup "zz"] }) ∧
    (findUser dir0 "u3"
        = some { id := "u3", email := some "u3@example.com", fcmToken := none } ∧
      send_to_user pushBackend1 dir0 reqUserNoToken =
        { result := .missingToken "u3"
          pushCalls := [], dirOps := [.lookup "u3"] }) :=
  ⟨⟨by decide,
    ((C5_lookup_failures pushBackend1 dir0 reqUserUnknown
      (by decide) (by decide) (by decide)).1 (by decide)).1⟩,
   ⟨by decide,
    ((C5_lookup_failures pushBackend1 dir0 reqUserNoToken
      (by decide) (by decide) (by decide)).2
      { id := "u3", email := some "u3@example.com", fcmToken := none }
      (by decide) (by decide)).1⟩⟩

/-- C6: on a valid request whose Directory record carries a non-empty
`fcmToken`, the handler makes exactly one outbound push-delivery call (the
message built from the request and that token) and answers with the
backend's message identifier, the request's `userId`, and the record's
`email` (an optional value, `none` when absent). -/
theorem C6_send_success (backend : Message → String) (dir : List UserRecord)
    (req : SendToUserRequest) (r : UserRecord) (tok : String)
    (hu : truthy req.userId = true) (ht : truthy req.title = true)
    (hb : truthy req.body = true)
    (hr : findUser dir (req.userId.getD "") = some r)
    (htok : r.fcmToken = some tok) (hne : tok ≠ "") :
    send_to_user backend dir req =
      { result := SendToUserResult.success
          (backend (buildUserMessage req tok)) (req.userId.getD "") r.email
        pushCalls := [buildUserMessage req tok]
        dirOps := [.lookup (req.userId.getD "")] } ∧
    (send_to_user backend dir req).pushCalls.length = 1 := by
  have hcond : ¬(truthy req.userId = false ∨ truthy req.title = false ∨
      truthy req.body = false) := by simp [hu, ht, hb]
  have htr : truthy r.fcmToken = true := by simp [truthy, htok, hne]
  have hgd : r.fcmToken.getD "" = tok := by rw [htok]; rfl
  have hmain : send_to_user backend dir req =
      { result := SendToUserResult.success
          (backend (buildUserMessage req tok)) (req.userId.getD "") r.email
        pushCalls := [buildUserMessage req tok]
        dirOps := [.lookup (req.userId.getD "")] } := by
    rw [send_to_user_found backend dir req r hcond hr,
      if_neg (by simp [htr]), hgd]
  exact ⟨hmain, by rw [hmain]; rfl⟩

/-- C6 witness: sending `reqUser0` to `u1` (token `"t1"`) makes exactly one
push call and answers with `messageId = "msg-001"`, `userId = "u1"` and
`email = some "u1@example.com"`. -/
theorem C6_send_success_witness :
    findUser dir0 "u1"
        = some { id := "u1", email := some "u1@example.com"
                 fcmToken := some "t1" } ∧
    (send_to_user pushBackend1 dir0 reqUser0 =
      { result := SendToUserResult.success "msg-001" "u1"
          (some "u1@example.com")
        pushCalls := [buildUserMessage reqUser0 "t1"]
        dirOps := [.lookup "u1"] } ∧
    (send_to_user pushBackend1 dir0 reqUser0).pushCalls.length = 1) :=
  ⟨by decide,
   C6_send_success pushBackend1 dir0 reqUser0
     { id := "u1", email := some "u1@example.com", fcmToken := some "t1" }
     "t1" (by decide) (by decide) (by decide) (by decide) (by decide)
     (by decide)⟩

/-- C10: for every successful `send-to-user` request, the submitted
message's custom data map sends the key `channelId` to the request's
`channelId` (defaulting to `general_channel` when the request omits it),
overriding any caller-supplied `channelId` entry, while lookups of every
other key are unchanged from the caller's `data` map. -/
theorem C10_channel_id_override (backend : Message → String)
    (dir : List UserRecord) (req : SendToUserRequest) (r : UserRecord)
    (tok : String)
    (hu : truthy req.userId = true) (ht : truthy req.title = true)
    (hb : truthy req.body = true)
    (hr : findUser dir (req.userId.getD "") = some r)
    (htok : r.fcmToken = some tok) (hne : tok ≠ "") :
    (send_to_user backend dir req).pushCalls = [buildUserMessage req tok] ∧
    dictGet (buildUserMessage req tok).data "channelId"
        = some (req.channelId.getD "general_channel") ∧
    ∀ k, k ≠ "channelId" →
      dictGet (buildUserMessage req tok).data k = dictGet req.data k := by
  have hcond : ¬(truthy req.userId = false ∨ truthy req.title = false ∨
      truthy req.body = false) := by simp [hu, ht, hb]
  have htr : truthy r.fcmToken = true := by simp [truthy, htok, hne]
  have hgd : r.fcmToken.getD "" = tok := by rw [htok]; rfl
  refine ⟨?_, ?_, ?_⟩
  · rw [send_to_user_found backend dir req r hcond hr,
      if_neg (by simp [htr]), hgd]
  · exact dictGet_pyDictSet_self req.data "channelId" _
  · intro k hk
    exact dictGet_pyDictSet_other req.data "channelId" _ k hk

/-- C10 witness: for `reqUser0` (caller data `[("k","v"),("channelId","old")]`,
request `channelId = "chat"`), the submitted data map sends `channelId` to
`"chat"` (overriding `"old"`) and leaves the lookup of `"k"` unchanged. -/
theorem C10_channel_id_override_witness :
    (send_to_user pushBackend1 dir0 reqUser0).pushCalls
        = [buildUserMessage reqUser0 "t1"] ∧
    dictGet (buildUserMessage reqUser0 "t1").data "channelId" = some "chat" ∧
    dictGet (buildUserMessage reqUser0 "t1").data "k" = dictGet reqUser0.data "k" :=
  ⟨(C10_channel_id_override pushBackend1 dir0 reqUser0
      { id := "u1", email := some "u1@example.com", fcmToken := some "t1" }
      "t1" (by decide) (by decide) (by decide) (by decide) (by decide)
      (by decide)).1,
   (C10_channel_id_override pushBackend1 dir0 reqUser0
      { id := "u1", email := some "u1@example.com", fcmToken := some "t1" }
      "t1" (by decide) (by decide) (by decide) (by decide) (by decide)
      (by decide)).2.1,
   (C10_channel_id_override pushBackend1 dir0 reqUser0
      { id := "u1", email := some "u1@example.com", fcmToken := some "t1" }
      "t1" (by decide) (by decide) (by decide) (by decide) (by decide)
      (by decide)).2.2 "k" (by decide)⟩

/-- C9 witness: two evaluations of `ListUsers` on the concrete Directory
`dir0` agree on every projected field. -/
theorem C9_list_users_idempotent_witness :
    (get_users dir0).result.total = (get_users dir0).result.total ∧
    (get_users dir0).result.withTokens = (get_users dir0).result.withTokens ∧
    (get_users dir0).result.users = (get_users dir0).result.users ∧
    get_users dir0 = get_users dir0 :=
  C9_list_users_idempotent dir0 (get_users dir0) (get_users dir0) rfl rfl

end NotifGateway
